import Mathlib

set_option maxRecDepth 8000

/-! Shallow embedding of the uptime module: per-platform probes, the
dispatcher uptime(), the direct Linux boot-time reader, and boottime(),
together with the process-wide boot-time cache. Machine floats are
modelled as rationals; ambient OS state (files, libraries, symbols,
clock) is an explicit environment record. -/

/-- Helper for the Python no-argument str.split: accumulate the current
token (reversed) and cut at whitespace runs, dropping empty tokens. -/
def wsSplitAux : List Char → List Char → List String
  | [], cur => if cur.isEmpty then [] else [String.mk cur.reverse]
  | c :: cs, cur =>
    if c.isWhitespace then
      if cur.isEmpty then wsSplitAux cs []
      else String.mk cur.reverse :: wsSplitAux cs []
    else wsSplitAux cs (c :: cur)

/-- Python str.split with no argument: split on whitespace runs. -/
def splitWs (s : String) : List String := wsSplitAux s.data []

/-- The first line of a file body, as read by file.readline (the trailing
newline is irrelevant because callers immediately split on whitespace). -/
def firstLine (s : String) : String :=
  String.mk (s.data.takeWhile (fun c => c != '\n'))

/-- Python str.startswith. -/
def strStarts (l : String) (p : String) : Bool := p.data.isPrefixOf l.data

/-- Numeric value of a digit string. -/
def digitsVal (cs : List Char) : Nat :=
  cs.foldl (fun a c => 10 * a + (c.toNat - 48)) 0

/-- Model of the Python float() constructor on the decimal tokens that
occur in the uptime pseudo-file: optional sign, digits, optional point
and fraction digits; anything else raises ValueError, modelled as none. -/
def pyFloat (s : String) : Option ℚ :=
  let cs := s.data
  let signNeg : Bool := match cs with | '-' :: _ => true | _ => false
  let rest : List Char :=
    match cs with
    | '-' :: r => r
    | '+' :: r => r
    | r => r
  let ip := rest.takeWhile Char.isDigit
  let rest2 := rest.dropWhile Char.isDigit
  let mag : Option ℚ :=
    match rest2 with
    | [] => if ip.isEmpty then none else some (digitsVal ip : ℚ)
    | '.' :: fp =>
      if (ip.isEmpty && fp.isEmpty) || !(fp.all Char.isDigit) then none
      else some ((digitsVal ip : ℚ) + (digitsVal fp : ℚ) / (10 : ℚ) ^ fp.length)
    | _ => none
  match mag with
  | none => none
  | some v => some (if signNeg then -v else v)

/-- Model of the Python int() constructor: optional sign and digits;
anything else raises ValueError, modelled as none. -/
def pyInt (s : String) : Option ℤ :=
  let cs := s.data
  let signNeg : Bool := match cs with | '-' :: _ => true | _ => false
  let rest : List Char :=
    match cs with
    | '-' :: r => r
    | '+' :: r => r
    | r => r
  if rest.isEmpty || !(rest.all Char.isDigit) then none
  else some (if signNeg then -(digitsVal rest : ℤ) else (digitsVal rest : ℤ))

/-- Python exceptions that can escape the modelled functions. -/
inductive PyErr where
  | indexError
  | valueError
  | typeError
  | unboundLocal
  | runtimeError
  | notImplementedError
deriving DecidableEq, Repr

/-- The probes of the fallback chain, for the invocation trace. -/
inductive Probe where
  | linux
  | bsd
  | posix
  | mac
  | osx
deriving DecidableEq, Repr

/-- Ambient OS state consulted by the module: the platform identifier,
the wall clock, module availability, pseudo-file contents, dynamic
library facts and the opaque posix and osx collaborators. -/
structure Env where
  platform : String
  now : ℚ
  hasDatetime : Bool
  procUptime : Option String
  hasCtypes : Bool
  linuxLibcFound : Bool
  hasSysinfo : Bool
  sysinfoRet : ℤ
  sysinfoUp : ℤ
  bsdLibcFound : Bool
  hasSysctlbyname : Bool
  sysctlSize : Nat
  bootSec : Nat
  bootUsec : Nat
  macTicks : Option Nat
  posixUptime : Option ℚ
  osxUptime : Option ℚ
  procStat : Option (List String)
deriving Repr

/-- Mutable module state: the process-wide boot-time cache. -/
structure St where
  boottime : Option ℚ
deriving DecidableEq, Repr

/-- struct.calcsize of two native unsigned longs on the usual LP64
platform the BSD probe runs on. -/
def calcsizeLL : Nat := 16

/-- The sysinfo half of the Linux probe: missing ctypes raises
AttributeError (caught), a missing library or missing sysinfo symbol
yields None, a failing call yields None, and a negative decoded value is
replaced by None. -/
def sysinfoPart (e : Env) : Option ℚ :=
  if ¬ e.hasCtypes then none
  else if ¬ e.linuxLibcFound then none
  else if ¬ e.hasSysinfo then none
  else if e.sysinfoRet < 0 then none
  else if e.sysinfoUp < 0 then none
  else some (e.sysinfoUp : ℚ)

/-- The Linux probe: read the first whitespace token of the first line of
the uptime pseudo-file as a float and return it; IOError and ValueError
fall through to the sysinfo attempt, but indexing an empty token list
raises IndexError, which is not caught. -/
def uptimeLinux (e : Env) : Except PyErr (Option ℚ) :=
  match e.procUptime with
  | none => .ok (sysinfoPart e)
  | some content =>
    match splitWs (firstLine content) with
    | [] => .error .indexError
    | tok :: _ =>
      match pyFloat tok with
      | none => .ok (sysinfoPart e)
      | some up => .ok (some up)

/-- The boot instant the BSD probe computes from the kern.boottime
response: seconds plus microseconds over one million, with a
microseconds component above one million normalized to zero. -/
def bsdBootVal (e : Env) : ℚ :=
  (e.bootSec : ℚ) +
    (if 1000000 < e.bootUsec then 0 else (e.bootUsec : ℚ)) / 1000000

/-- The BSD probe: after the library, symbol and size checks succeed it
stores the computed boot instant in the cache, then returns current time
minus boot instant, or None when that difference is negative. -/
def uptimeBsd (e : Env) (s : St) : Option ℚ × St :=
  if ¬ e.hasCtypes then (none, s)
  else if ¬ e.bsdLibcFound then (none, s)
  else if ¬ e.hasSysctlbyname then (none, s)
  else if e.sysctlSize ≠ calcsizeLL then (none, s)
  else if e.now - bsdBootVal e < 0 then (none, ⟨some (bsdBootVal e)⟩)
  else (some (e.now - bsdBootVal e), ⟨some (bsdBootVal e)⟩)

/-- The classic Mac probe: tick counter divided by 60.15 ticks per
second; an absent facility raises NameError, caught to None. -/
def uptimeMac (e : Env) : Option ℚ :=
  match e.macTicks with
  | none => none
  | some t => some ((t : ℚ) / (6015 / 100 : ℚ))

/-- Scan of the stat pseudo-file lines: every line starting with btime
assigns the cache; a matching line with fewer than two tokens raises
IndexError and a non-integer second token raises ValueError, in both
cases keeping the assignments made so far. -/
def btimeScan : List String → Option ℚ → Option PyErr × Option ℚ
  | [], acc => (none, acc)
  | l :: ls, acc =>
    if strStarts l "btime" then
      match splitWs l with
      | _ :: tok :: _ =>
        match pyInt tok with
        | none => (some .valueError, acc)
        | some n => btimeScan ls (some (n : ℚ))
      | _ => (some .indexError, acc)
    else btimeScan ls acc

/-- The direct Linux boot-time reader: IOError and IndexError return
None; ValueError propagates; with no datetime module it raises
NotImplementedError; converting a still-unset cache raises TypeError,
otherwise it returns the cached epoch value. -/
def boottimeLinux (e : Env) (s : St) : Except PyErr (Option ℚ) × St :=
  match e.procStat with
  | none => (.ok none, s)
  | some lines =>
    match btimeScan lines s.boottime with
    | (some PyErr.indexError, bt) => (.ok none, ⟨bt⟩)
    | (some err, bt) => (.error err, ⟨bt⟩)
    | (none, bt) =>
      if ¬ e.hasDatetime then (.error .notImplementedError, ⟨bt⟩)
      else
        match bt with
        | none => (.error .typeError, ⟨bt⟩)
        | some b => (.ok (some b), ⟨bt⟩)

/-- Python truthiness of a probe result: None and 0 are falsy. -/
def truthy : Option ℚ → Bool
  | none => false
  | some x => decide (x ≠ 0)

/-- The dispatch table: the Linux family identifiers map to the Linux
probe, the classic Mac identifier to the ticks probe, and every other
identifier defaults to the BSD probe. -/
def preferredProbe (p : String) : Probe :=
  if p = "linux" ∨ p = "linux-armv71" ∨ p = "linux2" then .linux
  else if p = "mac" then .mac
  else .bsd

/-- The or-chain of probes evaluated by uptime: the preferred probe
followed by BSD, Linux, posix, Mac and osx. -/
def chainFor (p : String) : List Probe :=
  [preferredProbe p, .bsd, .linux, .posix, .mac, .osx]

/-- Run one probe against the environment and state. -/
def runProbe (e : Env) (s : St) : Probe → Except PyErr (Option ℚ) × St
  | .linux => (uptimeLinux e, s)
  | .bsd => (.ok (uptimeBsd e s).1, (uptimeBsd e s).2)
  | .posix => (.ok e.posixUptime, s)
  | .mac => (.ok (uptimeMac e), s)
  | .osx => (.ok e.osxUptime, s)

/-- Left-to-right evaluation of the Python or-chain of probe calls: stop
at the first truthy value, propagate an uncaught exception, and when
every operand is falsy return the value of the last evaluated operand.
The third component is the trace of probes actually invoked. -/
def runChain (e : Env) : List Probe → St → Except PyErr (Option ℚ) × St × List Probe
  | [], s => (.ok none, s, [])
  | [p], s =>
    match runProbe e s p with
    | (.error err, s1) => (.error err, s1, [p])
    | (.ok v, s1) => (.ok v, s1, [p])
  | p :: q :: ps, s =>
    match runProbe e s p with
    | (.error err, s1) => (.error err, s1, [p])
    | (.ok v, s1) =>
      if truthy v then (.ok v, s1, [p])
      else
        match runChain e (q :: ps) s1 with
        | (r, s2, t) => (r, s2, p :: t)

/-- The public uptime operation: with a cached boot instant return the
clock minus the cache without invoking any probe; otherwise evaluate the
keyed preferred probe and the fixed fallback chain. -/
def uptime (e : Env) (s : St) : Except PyErr (Option ℚ) × St × List Probe :=
  match s.boottime with
  | some b => (.ok (some (e.now - b)), s, [])
  | none => runChain e (chainFor e.platform) s

/-- The tail of boottime after the probing phase: raise RuntimeError
without datetime, else convert the truthy cache value, falling back to
current time minus the local uptime variable, which is unbound when the
probing phase was skipped. -/
def boottimeRet (e : Env) (s : St) (upVar : Option ℚ) : Except PyErr (Option ℚ) × St :=
  if ¬ e.hasDatetime then (.error .runtimeError, s)
  else if truthy s.boottime then (.ok s.boottime, s)
  else
    match upVar with
    | none => (.error .unboundLocal, s)
    | some u => (.ok (some (e.now - u)), s)

/-- The public boottime operation: with an unset cache call uptime and
return None when it yields None; with the cache still unset afterwards
attempt the direct Linux read; finally convert the cache or derive the
instant from the local uptime value. -/
def boottime (e : Env) (s : St) : Except PyErr (Option ℚ) × St :=
  match s.boottime with
  | some _ => boottimeRet e s none
  | none =>
    match uptime e s with
    | (.error err, s1, _) => (.error err, s1)
    | (.ok none, s1, _) => (.ok none, s1)
    | (.ok (some u), s1, _) =>
      match s1.boottime with
      | some _ => boottimeRet e s1 (some u)
      | none =>
        match boottimeLinux e s1 with
        | (.error err, s2) => (.error err, s2)
        | (.ok _, s2) => boottimeRet e s2 (some u)

/-- The value returned by the Linux probe when it does not raise, and
None when it raises; used to state value-level properties of the chain. -/
def linuxVal (e : Env) : Option ℚ :=
  match uptimeLinux e with
  | .ok v => v
  | .error _ => none

/-- The value component of the BSD probe, which does not depend on the
incoming state. -/
def bsdVal (e : Env) : Option ℚ := (uptimeBsd e ⟨none⟩).1

/-- The value a given probe contributes to the or-chain. -/
def probeVal (e : Env) : Probe → Option ℚ
  | .linux => linuxVal e
  | .bsd => bsdVal e
  | .posix => e.posixUptime
  | .mac => uptimeMac e
  | .osx => e.osxUptime

/-- Specification-side reading of a Python or-chain over option values:
the first truthy element, or the last element when all are falsy. -/
def firstTruthyOrLast : List (Option ℚ) → Option ℚ
  | [] => none
  | [v] => v
  | v :: w :: vs => if truthy v then v else firstTruthyOrLast (w :: vs)

/-- Baseline environment in which every facility is absent. -/
def env0 : Env where
  platform := "unknownos"
  now := 100
  hasDatetime := true
  procUptime := none
  hasCtypes := false
  linuxLibcFound := false
  hasSysinfo := false
  sysinfoRet := 0
  sysinfoUp := 0
  bsdLibcFound := false
  hasSysctlbyname := false
  sysctlSize := 0
  bootSec := 0
  bootUsec := 0
  macTicks := none
  posixUptime := none
  osxUptime := none
  procStat := none

/-- Environment whose uptime pseudo-file reports a negative uptime. -/
def envNegProc : Env := { env0 with platform := "linux", procUptime := some "-5.0 370.20" }

/-- Environment in which the sysinfo call succeeds with 5 seconds. -/
def envSysinfo : Env :=
  { env0 with hasCtypes := true, linuxLibcFound := true, hasSysinfo := true, sysinfoUp := 5 }

/-- Environment in which the BSD probe succeeds: boot at 98, clock 100. -/
def envBsdPos : Env :=
  { env0 with hasCtypes := true, bsdLibcFound := true, hasSysctlbyname := true,
              sysctlSize := 16, bootSec := 98 }

/-- Environment in which the Mac tick counter reads 6015 ticks. -/
def envMacT : Env := { env0 with macTicks := some 6015 }

/-- Environment whose uptime pseudo-file exists but is empty. -/
def envEmptyProc : Env := { env0 with procUptime := some "" }

/-- Environment on an unlisted platform where the preferred BSD probe
fails, the Linux probe succeeds with exactly 0 and the posix collaborator
succeeds with 7. -/
def envC3 : Env :=
  { env0 with platform := "plan9", procUptime := some "0.0", posixUptime := some 7 }

/-- Environment in which the BSD probe passes its checks but computes a
negative uptime: boot at 200, clock 100. -/
def envBsdNeg : Env :=
  { env0 with hasCtypes := true, bsdLibcFound := true, hasSysctlbyname := true,
              sysctlSize := 16, bootSec := 200 }

/-- Environment in which every probe but the osx collaborator fails and
the osx collaborator reports exactly 0. -/
def envOsxZero : Env := { env0 with osxUptime := some 0 }

/-- Environment on the linux identifier with a 5 second uptime file. -/
def envLinux5 : Env := { env0 with platform := "linux", procUptime := some "5.0" }

/-- Environment in which every probe yields 0 or None and the osx
collaborator yields exactly 0. -/
def envC9z : Env :=
  { env0 with platform := "linux", procUptime := some "0.0", osxUptime := some 0 }

lemma uptimeBsd_fst (e : Env) (s : St) : (uptimeBsd e s).1 = bsdVal e := by
  unfold bsdVal uptimeBsd
  split_ifs <;> rfl

lemma preferredProbe_mem (p : String) :
    preferredProbe p = .linux ∨ preferredProbe p = .mac ∨ preferredProbe p = .bsd := by
  unfold preferredProbe
  split_ifs <;> simp

lemma runProbe_eq (e : Env) (s : St) (p : Probe) (hL : uptimeLinux e = .ok (linuxVal e)) :
    ∃ s1, runProbe e s p = (.ok (probeVal e p), s1) := by
  cases p
  · exact ⟨s, by simp [runProbe, probeVal, hL]⟩
  · exact ⟨(uptimeBsd e s).2, by simp [runProbe, probeVal, uptimeBsd_fst]⟩
  · exact ⟨s, rfl⟩
  · exact ⟨s, rfl⟩
  · exact ⟨s, rfl⟩

lemma runChain_fst (e : Env) (hL : uptimeLinux e = .ok (linuxVal e)) :
    ∀ (ps : List Probe) (s : St),
      (runChain e ps s).1 = .ok (firstTruthyOrLast (ps.map (probeVal e))) := by
  intro ps
  induction ps with
  | nil => intro s; rfl
  | cons p ps ih =>
    intro s
    obtain ⟨s1, h1⟩ := runProbe_eq e s p hL
    cases ps with
    | nil =>
      simp [runChain, h1, firstTruthyOrLast]
    | cons q ps2 =>
      obtain ⟨r, s2, t, hR⟩ : ∃ r s2 t, runChain e (q :: ps2) s1 = (r, s2, t) :=
        ⟨_, _, _, rfl⟩
      have hv := ih s1
      rw [hR] at hv
      by_cases ht : truthy (probeVal e p) = true
      · simp [runChain, h1, ht, firstTruthyOrLast]
      · rw [Bool.not_eq_true] at ht
        simp [runChain, h1, ht, hR, firstTruthyOrLast]
        simpa using hv

lemma truthy_false_of_none_or_zero {v : Option ℚ} (h : v = none ∨ v = some 0) :
    truthy v = false := by
  rcases h with h | h <;> subst h <;> with_unfolding_all rfl

lemma boottimeRet_snd (e : Env) (s : St) (upVar : Option ℚ) :
    (boottimeRet e s upVar).2 = s := by
  unfold boottimeRet
  split_ifs <;> rcases upVar with _ | u <;> rfl

/-- Claim C1, counterexample: with the uptime pseudo-file containing the
token -5.0, the Linux procfs probe computes the negative uptime -5 and
returns it rather than None, and uptime() passes that negative value
through to the caller. -/
theorem uptimeLinux_negative_value_returned :
    uptimeLinux envNegProc = .ok (some (-5)) ∧
    (uptime envNegProc ⟨none⟩).1 = .ok (some (-5)) ∧ (-5 : ℚ) < 0 :=
  ⟨by with_unfolding_all rfl, by with_unfolding_all rfl, by norm_num⟩

/-- Claim C1, amended: the sysinfo half of the Linux probe, the BSD
probe and the Mac ticks probe never return a negative uptime (the first
two map negative computations to None); the procfs read performs no such
check, as the counterexample shows. -/
theorem probes_negative_rejection_amended :
    (∀ (e : Env) (v : ℚ), sysinfoPart e = some v → 0 ≤ v) ∧
    (∀ (e : Env) (s : St) (v : ℚ), (uptimeBsd e s).1 = some v → 0 ≤ v) ∧
    (∀ (e : Env) (v : ℚ), uptimeMac e = some v → 0 ≤ v) := by
  refine ⟨?_, ?_, ?_⟩
  · intro e v h
    unfold sysinfoPart at h
    split_ifs at h with h1 h2 h3 h4 h5
    cases h
    exact_mod_cast not_lt.mp h5
  · intro e s v h
    unfold uptimeBsd at h
    split_ifs at h with h1 h2 h3 h4 h5
    cases h
    exact not_lt.mp h5
  · intro e v h
    unfold uptimeMac at h
    cases hm : e.macTicks with
    | none => rw [hm] at h; cases h
    | some t =>
      rw [hm] at h
      cases h
      positivity

/-- Witness for the amended claim C1 at concrete environments in which
the sysinfo, BSD and Mac probes succeed with 5, 2 and 100 seconds. -/
theorem probes_negative_rejection_amended_witness :
    (0:ℚ) ≤ 5 ∧ (0:ℚ) ≤ 2 ∧ (0:ℚ) ≤ 100 :=
  ⟨probes_negative_rejection_amended.1 envSysinfo 5 (by with_unfolding_all rfl),
   probes_negative_rejection_amended.2.1 envBsdPos ⟨none⟩ 2 (by with_unfolding_all rfl),
   probes_negative_rejection_amended.2.2 envMacT 100 (by with_unfolding_all rfl)⟩

/-- Claim C2, code bug: when the uptime pseudo-file opens successfully
but its first line holds no token at all, the Linux probe raises
IndexError instead of returning None, because only IOError and
ValueError are caught around the procfs read. -/
theorem uptimeLinux_empty_file_raises :
    envEmptyProc.procUptime = some "" ∧ uptimeLinux envEmptyProc = .error .indexError :=
  ⟨rfl, by with_unfolding_all rfl⟩

/-- Claim C3, counterexample: on an unlisted platform the preferred BSD
probe fails, the Linux probe (second in the chain after BSD) succeeds
with uptime 0, yet uptime() skips that success and returns 7 from the
later posix probe, so the chain does not return the first success. -/
theorem uptime_skips_zero_success_counterexample :
    preferredProbe envC3.platform = .bsd ∧
    bsdVal envC3 = none ∧
    uptimeLinux envC3 = .ok (some 0) ∧
    (uptime envC3 ⟨none⟩).1 = .ok (some 7) ∧
    (Except.ok (some (7:ℚ)) : Except PyErr (Option ℚ)) ≠ .ok (some 0) := by
  refine ⟨by with_unfolding_all rfl, by with_unfolding_all rfl,
          by with_unfolding_all rfl, by with_unfolding_all rfl, ?_⟩
  intro h
  rw [Except.ok.injEq, Option.some.injEq] at h
  norm_num at h

/-- Claim C3, amended: with the cache unset and the Linux probe not
raising, uptime() evaluates exactly the chain preferred-probe, BSD,
Linux, posix, Mac, osx, and returns the first probe value that is truthy
(non-None and nonzero); when all are falsy it returns the value of the
last probe. The preferred probe is given by the fixed dispatch table. -/
theorem uptime_dispatch_fallback_amended (e : Env) (s : St)
    (hc : s.boottime = none) (hL : uptimeLinux e = .ok (linuxVal e)) :
    (uptime e s).1 = .ok (firstTruthyOrLast ((chainFor e.platform).map (probeVal e))) ∧
    chainFor e.platform = [preferredProbe e.platform, .bsd, .linux, .posix, .mac, .osx] := by
  refine ⟨?_, rfl⟩
  unfold uptime
  rw [hc]
  exact runChain_fst e hL (chainFor e.platform) s

/-- Witness for the amended claim C3 at a concrete environment. -/
theorem uptime_dispatch_fallback_amended_witness :
    (uptime envC3 ⟨none⟩).1 =
      .ok (firstTruthyOrLast ((chainFor envC3.platform).map (probeVal envC3))) ∧
    chainFor envC3.platform =
      [preferredProbe envC3.platform, .bsd, .linux, .posix, .mac, .osx] :=
  uptime_dispatch_fallback_amended envC3 ⟨none⟩ rfl (by with_unfolding_all rfl)

/-- Claim C4, counterexample: the BSD probe writes the boot-time cache
before its negativity check, so with boot instant 200 and clock 100 it
returns None (a failed probe) while moving the cache from unset to 200. -/
theorem uptimeBsd_failure_sets_cache_counterexample :
    uptimeBsd envBsdNeg ⟨none⟩ = (none, ⟨some 200⟩) ∧
    (some (200:ℚ) : Option ℚ) ≠ none :=
  ⟨by with_unfolding_all rfl, by simp⟩

/-- Claim C4, amended: once the cache holds a value, neither uptime()
nor boottime() modifies the state, so the cached instant is never
overwritten; the unchanged part of the original claim fails only in that
a failing BSD probe can still perform the unset-to-set transition. -/
theorem cache_preserved_once_set_amended (e : Env) (s : St) (b : ℚ)
    (h : s.boottime = some b) :
    (uptime e s).2.1 = s ∧ (boottime e s).2 = s := by
  constructor
  · unfold uptime
    rw [h]
  · have h2 : boottime e s = boottimeRet e s none := by
      unfold boottime
      rw [h]
    rw [h2]
    exact boottimeRet_snd e s none

/-- Witness for the amended claim C4 with the cache set to 50. -/
theorem cache_preserved_once_set_amended_witness :
    (uptime env0 ⟨some 50⟩).2.1 = (⟨some 50⟩ : St) ∧
    (boottime env0 ⟨some 50⟩).2 = (⟨some 50⟩ : St) :=
  cache_preserved_once_set_amended env0 ⟨some 50⟩ 50 rfl

/-- Claim C5, confirmed: whenever the cache holds an instant b,
uptime() returns current time minus b with the state unchanged and an
empty probe invocation trace, so no probe is evaluated on this path. -/
theorem uptime_fast_path_no_probing (e : Env) (s : St) (b : ℚ)
    (h : s.boottime = some b) :
    uptime e s = (.ok (some (e.now - b)), s, []) := by
  unfold uptime
  rw [h]

/-- Witness for claim C5 with the cache set to 40. -/
theorem uptime_fast_path_no_probing_witness :
    uptime env0 ⟨some 40⟩ = (.ok (some (env0.now - 40)), ⟨some 40⟩, []) :=
  uptime_fast_path_no_probing env0 ⟨some 40⟩ 40 rfl

/-- Claim C6, counterexample: with the cache holding the non-null
instant 0, boottime() raises the unbound-local error instead of
returning the cached instant. -/
theorem boottime_zero_cache_counterexample :
    boottime env0 ⟨some 0⟩ = (.error .unboundLocal, ⟨some 0⟩) ∧
    (Except.error PyErr.unboundLocal : Except PyErr (Option ℚ)) ≠ .ok (some 0) :=
  ⟨by with_unfolding_all rfl, fun h => Except.noConfusion h⟩

/-- Claim C6, amended: once the cache is set to a non-null, nonzero
instant b, every call to boottime() returns exactly that cached b and
leaves the state untouched, with no recomputation. -/
theorem boottime_idempotent_nonzero_cache (e : Env) (s : St) (b : ℚ)
    (h : s.boottime = some b) (hb : b ≠ 0) (hd : e.hasDatetime = true) :
    boottime e s = (.ok (some b), s) := by
  have h2 : boottime e s = boottimeRet e s none := by
    unfold boottime
    rw [h]
  have ht : truthy s.boottime = true := by
    rw [h]
    exact decide_eq_true hb
  rw [h2]
  unfold boottimeRet
  rw [hd, ht, h]
  simp

/-- Witness for the amended claim C6 with the cache set to 42. -/
theorem boottime_idempotent_nonzero_cache_witness :
    boottime env0 ⟨some 42⟩ = (.ok (some 42), ⟨some 42⟩) :=
  boottime_idempotent_nonzero_cache env0 ⟨some 42⟩ 42 rfl (by norm_num) rfl

/-- Claim C7, confirmed: with the cache unset, the time facility
present and every probe returning None, uptime() returns None and
boottime() returns None, and neither raises an error. -/
theorem all_probes_none_returns_none (e : Env) (s : St)
    (hc : s.boottime = none) (hd : e.hasDatetime = true)
    (hL : uptimeLinux e = .ok none) (hB : bsdVal e = none)
    (hP : e.posixUptime = none) (hM : uptimeMac e = none) (hO : e.osxUptime = none) :
    (uptime e s).1 = .ok none ∧ (boottime e s).1 = .ok none := by
  have hLv : linuxVal e = none := by unfold linuxVal; rw [hL]
  have hL2 : uptimeLinux e = .ok (linuxVal e) := by rw [hL, hLv]
  have hpre : probeVal e (preferredProbe e.platform) = none := by
    rcases preferredProbe_mem e.platform with hp | hp | hp <;> rw [hp]
    · exact hLv
    · exact hM
    · exact hB
  have hu : (uptime e s).1 = .ok none := by
    have hv : (uptime e s).1 =
        .ok (firstTruthyOrLast ((chainFor e.platform).map (probeVal e))) := by
      unfold uptime
      rw [hc]
      exact runChain_fst e hL2 (chainFor e.platform) s
    rw [hv, show (chainFor e.platform).map (probeVal e) =
        [probeVal e (preferredProbe e.platform), bsdVal e, linuxVal e,
         e.posixUptime, uptimeMac e, e.osxUptime] from rfl,
      hpre, hLv, hB, hP, hM, hO]
    rfl
  obtain ⟨r, s1, t, hU⟩ : ∃ r s1 t, uptime e s = (r, s1, t) := ⟨_, _, _, rfl⟩
  rw [hU] at hu
  simp only at hu
  subst hu
  refine ⟨by rw [hU], ?_⟩
  have hb : boottime e s = (.ok none, s1) := by
    unfold boottime
    rw [hc, hU]
  rw [hb]

/-- Witness for claim C7 in the environment where every facility is
absent. -/
theorem all_probes_none_returns_none_witness :
    (uptime env0 ⟨none⟩).1 = .ok none ∧ (boottime env0 ⟨none⟩).1 = .ok none :=
  all_probes_none_returns_none env0 ⟨none⟩ rfl rfl rfl rfl rfl rfl rfl

/-- Claim C8, confirmed: when probing yields an uptime u but leaves
the cache unset and the direct Linux boot-time read fails, boottime()
returns current time minus u and the cache remains unset afterwards. -/
theorem boottime_indirect_derivation_no_cache_write (e : Env) (s s1 : St)
    (u : ℚ) (t : List Probe)
    (hc : s.boottime = none)
    (hU : uptime e s = (.ok (some u), s1, t))
    (h1 : s1.boottime = none)
    (hS : e.procStat = none)
    (hd : e.hasDatetime = true) :
    boottime e s = (.ok (some (e.now - u)), s1) ∧ s1.boottime = none := by
  refine ⟨?_, h1⟩
  have hBL : boottimeLinux e s1 = (.ok none, s1) := by
    unfold boottimeLinux
    rw [hS]
  have hb1 : boottime e s =
      (match s1.boottime with
       | some _ => boottimeRet e s1 (some u)
       | none =>
         match boottimeLinux e s1 with
         | (.error err, s2) => (.error err, s2)
         | (.ok _, s2) => boottimeRet e s2 (some u)) := by
    unfold boottime
    rw [hc, hU]
  have ht1 : truthy s1.boottime = false := by
    rw [h1]
    rfl
  rw [hb1, h1, hBL]
  unfold boottimeRet
  rw [hd]
  simp [ht1]

/-- Witness for claim C8: a Linux environment whose procfs reports 5
seconds and whose stat pseudo-file is unreadable. -/
theorem boottime_indirect_derivation_no_cache_write_witness :
    boottime envLinux5 ⟨none⟩ = (.ok (some (envLinux5.now - 5)), ⟨none⟩) ∧
    (⟨none⟩ : St).boottime = none :=
  boottime_indirect_derivation_no_cache_write envLinux5 ⟨none⟩ ⟨none⟩ 5 [.linux]
    rfl (by with_unfolding_all rfl) rfl rfl rfl

/-- Claim C9, counterexample: in an environment where every probe
yields 0 or None and the last probe (osx) yields 0, uptime() returns 0,
not None as the claim states. -/
theorem uptime_all_zero_counterexample :
    probeVal envC9z .linux = some 0 ∧ probeVal envC9z .bsd = none ∧
    probeVal envC9z .posix = none ∧ probeVal envC9z .mac = none ∧
    probeVal envC9z .osx = some 0 ∧
    (uptime envC9z ⟨none⟩).1 = .ok (some 0) ∧
    (Except.ok (some (0:ℚ)) : Except PyErr (Option ℚ)) ≠ .ok none := by
  refine ⟨by with_unfolding_all rfl, by with_unfolding_all rfl, rfl, rfl,
          rfl, by with_unfolding_all rfl, ?_⟩
  intro h
  rw [Except.ok.injEq] at h
  cases h

/-- Claim C9, amended: a probe succeeding with exactly 0 is treated as
a failure and fallen through; when the preferred, BSD, Linux, posix and
Mac probes all yield None or 0, uptime() returns exactly the osx probe
value, hence None when it is None but 0 when it is 0. -/
theorem uptime_zero_treated_as_failure_amended (e : Env) (s : St)
    (hc : s.boottime = none) (hL : uptimeLinux e = .ok (linuxVal e))
    (h1 : linuxVal e = none ∨ linuxVal e = some 0)
    (h2 : bsdVal e = none ∨ bsdVal e = some 0)
    (h3 : e.posixUptime = none ∨ e.posixUptime = some 0)
    (h4 : uptimeMac e = none ∨ uptimeMac e = some 0) :
    (uptime e s).1 = .ok e.osxUptime := by
  have hv : (uptime e s).1 =
      .ok (firstTruthyOrLast ((chainFor e.platform).map (probeVal e))) := by
    unfold uptime
    rw [hc]
    exact runChain_fst e hL (chainFor e.platform) s
  have hLf : truthy (linuxVal e) = false := truthy_false_of_none_or_zero h1
  have hBf : truthy (bsdVal e) = false := truthy_false_of_none_or_zero h2
  have hPf : truthy e.posixUptime = false := truthy_false_of_none_or_zero h3
  have hMf : truthy (uptimeMac e) = false := truthy_false_of_none_or_zero h4
  have hpref : truthy (probeVal e (preferredProbe e.platform)) = false := by
    rcases preferredProbe_mem e.platform with hp | hp | hp <;> rw [hp]
    · exact hLf
    · exact hMf
    · exact hBf
  rw [hv, show (chainFor e.platform).map (probeVal e) =
      [probeVal e (preferredProbe e.platform), bsdVal e, linuxVal e,
       e.posixUptime, uptimeMac e, e.osxUptime] from rfl]
  simp [firstTruthyOrLast, hpref, hLf, hBf, hPf, hMf]

/-- Witness for the amended claim C9 where the osx probe yields 0. -/
theorem uptime_zero_treated_as_failure_amended_witness :
    (uptime envOsxZero ⟨none⟩).1 = .ok envOsxZero.osxUptime :=
  uptime_zero_treated_as_failure_amended envOsxZero ⟨none⟩ rfl
    (by with_unfolding_all rfl) (Or.inl (by with_unfolding_all rfl))
    (Or.inl (by with_unfolding_all rfl)) (Or.inl rfl) (Or.inl rfl)

/-- Claim C10, confirmed: if the cache holds the instant 0 when
boottime() is called (and the datetime module is present), the call ends
with the unbound-local error on the local uptime variable, rather than
returning the cached instant or None. -/
theorem boottime_unbound_local_on_zero_cache (e : Env) (s : St)
    (h : s.boottime = some 0) (hd : e.hasDatetime = true) :
    boottime e s = (.error .unboundLocal, s) := by
  have h2 : boottime e s = boottimeRet e s none := by
    unfold boottime
    rw [h]
  have ht0 : truthy s.boottime = false := by
    rw [h]
    with_unfolding_all rfl
  rw [h2]
  unfold boottimeRet
  rw [hd, ht0]
  simp

/-- Witness for claim C10 with the cache set to 0. -/
theorem boottime_unbound_local_on_zero_cache_witness :
    boottime envLinux5 ⟨some 0⟩ = (.error .unboundLocal, ⟨some 0⟩) :=
  boottime_unbound_local_on_zero_cache envLinux5 ⟨some 0⟩ rfl rfl
